import Mathlib

/-!
  # Verification of the SaaS Starter backend's credential subsystem

  A shallow embedding of `src/main.py`: the FastAPI signup/login/contact
  handlers, the `_hash_password` utility (PBKDF2-HMAC-SHA256 with a
  100,000-iteration count, as called through Python's
  `hashlib.pbkdf2_hmac`), and the document-store operations they use.

  Bytes are `Nat`s below 256; 32-bit words are `Nat`s reduced modulo 2^32 at
  every arithmetic step. Randomness (`secrets.token_hex`,
  `secrets.token_urlsafe`, fresh ObjectIds) is threaded as explicit
  parameters, the standard shallow embedding of a random source. The store
  (`database.py`, absent from the repository snapshot) is modelled from the
  specification's store-adapter section.
-/

/-! ## 32-bit word primitives (Python ints are unbounded; the SHA-256 rounds
reduce modulo 2^32 exactly where the C implementation wraps) -/

/-- Reduce to a 32-bit word. -/
def w32 (x : Nat) : Nat := x % 4294967296

/-- Bitwise complement within 32 bits. -/
def not32 (x : Nat) : Nat := x ^^^ 4294967295

/-- Right rotation of a 32-bit word. -/
def rotr32 (n x : Nat) : Nat := ((x >>> n) ||| w32 (x <<< (32 - n)))

/-! ## SHA-256 -/

/-- SHA-256 choice function. -/
def sha256Ch (x y z : Nat) : Nat := (x &&& y) ^^^ (not32 x &&& z)

/-- SHA-256 majority function. -/
def sha256Maj (x y z : Nat) : Nat := (x &&& y) ^^^ (x &&& z) ^^^ (y &&& z)

/-- SHA-256 big sigma 0. -/
def bigSigma0 (x : Nat) : Nat := rotr32 2 x ^^^ rotr32 13 x ^^^ rotr32 22 x

/-- SHA-256 big sigma 1. -/
def bigSigma1 (x : Nat) : Nat := rotr32 6 x ^^^ rotr32 11 x ^^^ rotr32 25 x

/-- SHA-256 small sigma 0. -/
def smallSigma0 (x : Nat) : Nat := rotr32 7 x ^^^ rotr32 18 x ^^^ (x >>> 3)

/-- SHA-256 small sigma 1. -/
def smallSigma1 (x : Nat) : Nat := rotr32 17 x ^^^ rotr32 19 x ^^^ (x >>> 10)

/-- The 64 SHA-256 round constants (FIPS 180-4, written in decimal). -/
def sha256K : List Nat :=
  [1116352408, 1899447441, 3049323471, 3921009573, 961987163,
   1508970993, 2453635748, 2870763221, 3624381080, 310598401,
   607225278, 1426881987, 1925078388, 2162078206, 2614888103,
   3248222580, 3835390401, 4022224774, 264347078, 604807628,
   770255983, 1249150122, 1555081692, 1996064986, 2554220882,
   2821834349, 2952996808, 3210313671, 3336571891, 3584528711,
   113926993, 338241895, 666307205, 773529912, 1294757372,
   1396182291, 1695183700, 1986661051, 2177026350, 2456956037,
   2730485921, 2820302411, 3259730800, 3345764771, 3516065817,
   3600352804, 4094571909, 275423344, 430227734, 506948616,
   659060556, 883997877, 958139571, 1322822218, 1537002063,
   1747873779, 1955562222, 2024104815, 2227730452, 2361852424,
   2428436474, 2756734187, 3204031479, 3329325298]

/-- The SHA-256 working state: eight 32-bit words. -/
structure Sha256State where
  a : Nat
  b : Nat
  c : Nat
  d : Nat
  e : Nat
  f : Nat
  g : Nat
  h : Nat
deriving Repr, DecidableEq

/-- The SHA-256 initial hash value (FIPS 180-4, written in decimal). -/
def sha256Init : Sha256State :=
  ⟨1779033703, 3144134277, 1013904242, 2773480762,
   1359893119, 2600822924, 528734635, 1541459225⟩

/-- One SHA-256 compression round, for round constant `k` and schedule word `w`. -/
def sha256Round (s : Sha256State) (k : Nat) (w : Nat) : Sha256State :=
  let t1 := w32 (s.h + bigSigma1 s.e + sha256Ch s.e s.f s.g + k + w)
  let t2 := w32 (bigSigma0 s.a + sha256Maj s.a s.b s.c)
  ⟨w32 (t1 + t2), s.a, s.b, s.c, w32 (s.d + t1), s.e, s.f, s.g⟩

/-- Big-endian bytes of a number, fixed width `k`. -/
def natToBytesBE : Nat → Nat → List Nat
  | 0, _ => []
  | k + 1, v => natToBytesBE k (v / 256) ++ [v % 256]

/-- Group a byte list into big-endian 32-bit words, four bytes each. -/
def bytesToWordsBE : List Nat → List Nat
  | b0 :: b1 :: b2 :: b3 :: rest =>
      (((b0 * 256 + b1) * 256 + b2) * 256 + b3) :: bytesToWordsBE rest
  | _ => []

/-- Flatten 32-bit words to big-endian bytes. -/
def wordsToBytes : List Nat → List Nat
  | [] => []
  | w :: ws => natToBytesBE 4 w ++ wordsToBytes ws

/-- Extend the 16-word message schedule by `n` further words. -/
def extendSchedule (ws : List Nat) : Nat → List Nat
  | 0 => ws
  | n + 1 =>
      let next := w32 (smallSigma1 (ws.getD (ws.length - 2) 0)
        + ws.getD (ws.length - 7) 0
        + smallSigma0 (ws.getD (ws.length - 15) 0)
        + ws.getD (ws.length - 16) 0)
      extendSchedule (ws ++ [next]) n

/-- Process one 64-byte chunk: run the 64 rounds and add the result to the
incoming state, word-wise modulo 2^32. -/
def sha256Chunk (s : Sha256State) (chunk : List Nat) : Sha256State :=
  let ws := extendSchedule (bytesToWordsBE chunk) 48
  let t := (sha256K.zip ws).foldl (fun st p => sha256Round st p.1 p.2) s
  ⟨w32 (s.a + t.a), w32 (s.b + t.b), w32 (s.c + t.c), w32 (s.d + t.d),
   w32 (s.e + t.e), w32 (s.f + t.f), w32 (s.g + t.g), w32 (s.h + t.h)⟩

/-- SHA-256 padding: a 0x80 byte, zeros to 56 mod 64, then the 64-bit
big-endian bit length. -/
def padMessage (msg : List Nat) : List Nat :=
  let L := msg.length
  let zeros := (120 - ((L + 1) % 64)) % 64
  msg ++ [128] ++ List.replicate zeros 0 ++ natToBytesBE 8 (8 * L)

/-- Split a list into `n` successive 64-byte chunks. -/
def splitChunks : Nat → List Nat → List (List Nat)
  | 0, _ => []
  | n + 1, l => l.take 64 :: splitChunks n (l.drop 64)

/-- SHA-256 of a byte list: 32 digest bytes. -/
def sha256 (msg : List Nat) : List Nat :=
  let padded := padMessage msg
  let final := (splitChunks (padded.length / 64) padded).foldl sha256Chunk sha256Init
  wordsToBytes [final.a, final.b, final.c, final.d,
                final.e, final.f, final.g, final.h]

/-! ## HMAC-SHA256 and PBKDF2 (Python `hashlib.pbkdf2_hmac("sha256", ...)`,
whose derived-key length defaults to the 32-byte digest size, so exactly one
PBKDF2 block is produced) -/

/-- HMAC-SHA256 with the standard 64-byte block size. -/
def hmacSha256 (key msg : List Nat) : List Nat :=
  let k0 := if key.length > 64 then sha256 key else key
  let kp := k0 ++ List.replicate (64 - k0.length) 0
  let ipadKey := kp.map (fun b => b ^^^ 0x36)
  let opadKey := kp.map (fun b => b ^^^ 0x5c)
  sha256 (opadKey ++ sha256 (ipadKey ++ msg))

/-- The PBKDF2 accumulation: `u` is the latest HMAC output, `t` the running
xor; each step applies HMAC once more and xors it in. -/
def pbkdf2Loop (password : List Nat) (u t : List Nat) : Nat → List Nat
  | 0 => t
  | n + 1 =>
      let u2 := hmacSha256 password u
      pbkdf2Loop password u2 (List.zipWith (· ^^^ ·) t u2) n

/-- PBKDF2-HMAC-SHA256 with derived-key length equal to the 32-byte digest
size: the single block `F(password, salt, c, 1)`, the xor of `c` successive
HMAC applications seeded with `salt ++ INT(1)`. -/
def pbkdf2HmacSha256 (password salt : List Nat) (c : Nat) : List Nat :=
  let u1 := hmacSha256 password (salt ++ [0, 0, 0, 1])
  pbkdf2Loop password u1 u1 (c - 1)

/-! ## Encoding helpers -/

/-- Lower-case hex digit for a value below 16. -/
def hexDigit (n : Nat) : Char :=
  if n < 10 then Char.ofNat (48 + n) else Char.ofNat (87 + n)

/-- Two lower-case hex characters per byte. -/
def bytesToHexChars : List Nat → List Char
  | [] => []
  | b :: bs => hexDigit (b / 16) :: hexDigit (b % 16) :: bytesToHexChars bs

/-- Lower-case hex string of a byte list (Python `bytes.hex()`). -/
def bytesToHex (bs : List Nat) : String := String.mk (bytesToHexChars bs)

/-- UTF-8 bytes of a string (Python `str.encode()`). -/
def strBytes (s : String) : List Nat := s.toUTF8.toList.map (fun b => b.toNat)

/-- Python `str.lower()`: lower-case every character (character-wise, which
agrees with Python on the ASCII emails at issue). -/
def str_lower (s : String) : String := String.mk (s.data.map Char.toLower)

/-- Python `secrets.token_hex n`: the hex encoding of `n` random bytes. The
random source is the `randBytes` parameter, padded so the result always
covers exactly `n` bytes. -/
def token_hex (n : Nat) (randBytes : List Nat) : String :=
  bytesToHex ((randBytes ++ List.replicate n 0).take n)

/-! ## `_hash_password` (src/main.py lines 26-30) -/

/-- `_hash_password(password, salt=None)`: when `salt` is falsy (absent or
empty, Python's `or`), a fresh `secrets.token_hex(16)` salt is drawn from
`randBytes`; the digest is `hashlib.pbkdf2_hmac("sha256", password.encode(),
salt.encode(), 100_000).hex()`, returned with the salt used. -/
def _hash_password (password : String) (salt : Option String) (randBytes : List Nat) :
    String × String :=
  let s := match salt with
    | some v => if v = "" then token_hex 16 randBytes else v
    | none => token_hex 16 randBytes
  (bytesToHex (pbkdf2HmacSha256 (strBytes password) (strBytes s) 100000), s)

/-! ## Length facts about the crypto layer -/

theorem length_natToBytesBE (k : Nat) : ∀ v, (natToBytesBE k v).length = k := by
  induction k with
  | zero => intro v; rfl
  | succ k ih => intro v; simp [natToBytesBE, ih]

theorem length_wordsToBytes (l : List Nat) :
    (wordsToBytes l).length = 4 * l.length := by
  induction l with
  | nil => rfl
  | cons w ws ih =>
      simp [wordsToBytes, length_natToBytesBE, ih, Nat.mul_succ, Nat.add_comm]

theorem sha256_length (msg : List Nat) : (sha256 msg).length = 32 := by
  simp [sha256, length_wordsToBytes]

theorem hmacSha256_length (key msg : List Nat) :
    (hmacSha256 key msg).length = 32 := by
  simp [hmacSha256, sha256_length]

theorem pbkdf2Loop_length (password : List Nat) :
    ∀ n u t, t.length = 32 → (pbkdf2Loop password u t n).length = 32 := by
  intro n
  induction n with
  | zero => intro u t ht; simpa [pbkdf2Loop] using ht
  | succ n ih =>
      intro u t ht
      simp only [pbkdf2Loop]
      exact ih _ _ (by simp [List.length_zipWith, ht, hmacSha256_length])

theorem pbkdf2HmacSha256_length (password salt : List Nat) (c : Nat) :
    (pbkdf2HmacSha256 password salt c).length = 32 := by
  simp only [pbkdf2HmacSha256]
  exact pbkdf2Loop_length _ _ _ _ (hmacSha256_length _ _)

theorem length_bytesToHexChars (bs : List Nat) :
    (bytesToHexChars bs).length = 2 * bs.length := by
  induction bs with
  | nil => rfl
  | cons b bs ih => simp [bytesToHexChars, ih, Nat.mul_succ, Nat.add_comm]; omega

theorem length_mk_chars (l : List Char) : (String.mk l).length = l.length := rfl

theorem bytesToHex_length (bs : List Nat) :
    (bytesToHex bs).length = 2 * bs.length := by
  simp [bytesToHex, length_mk_chars, length_bytesToHexChars]

theorem token_hex_length (n : Nat) (r : List Nat) :
    (token_hex n r).length = 2 * n := by
  simp [token_hex, bytesToHex_length, List.length_take, List.length_replicate]

theorem token_hex_ne_empty (r : List Nat) : token_hex 16 r ≠ "" := by
  intro h
  have := token_hex_length 16 r
  rw [h] at this
  simp at this

theorem hash_hex_length (p : String) (s : Option String) (r : List Nat) :
    ((_hash_password p s r).1).length = 64 := by
  simp [_hash_password, bytesToHex_length, pbkdf2HmacSha256_length]

theorem hash_hex_ne_empty (p : String) (s : Option String) (r : List Nat) :
    (_hash_password p s r).1 ≠ "" := by
  intro h
  have := hash_hex_length p s r
  rw [h] at this
  simp at this

/-! ## Request/response models (src/main.py lines 49-61; pydantic `BaseModel`s) -/

/-- `SignupRequest`: name, email (an `EmailStr`), password. -/
structure SignupRequest where
  name : String
  email : String
  password : String
deriving Repr, DecidableEq

/-- `LoginRequest`: email (an `EmailStr`), password. -/
structure LoginRequest where
  email : String
  password : String
deriving Repr, DecidableEq

/-- `AuthResponse`: token, name, email. -/
structure AuthResponse where
  token : String
  name : String
  email : String
deriving Repr, DecidableEq

/-- The observable failure of a request: an `HTTPException` with status code
and detail (src/main.py raises these), or the framework-level pydantic
validation rejection of a malformed body, or the modelled store-adapter
failure when the store handle is absent. -/
inductive ApiError where
  | httpException (status : Nat) (detail : String)
  | validationError (loc : String)
  | storeUnavailable
deriving Repr, DecidableEq

/-- A stored `user` document. MongoDB documents are schema-less: any field
other than `_id` may be absent, which `dict.get` reads as `None`; documents
written by this app populate all of them. -/
structure UserDoc where
  _id : Nat
  name : Option String
  email : Option String
  password_hash : Option String
  salt : Option String
  is_active : Option Bool
  tokens : List String
deriving Repr, DecidableEq, Inhabited

/-- Modelled from the spec: the `User` pydantic schema (`schemas.py`, not
under src/), holding the fields `signup` passes to its constructor (§3 data
model, minus the store-assigned id). -/
structure UserSchema where
  name : String
  email : String
  password_hash : String
  salt : String
  is_active : Bool
  tokens : List String
deriving Repr, DecidableEq

/-- Modelled from the spec: the `ContactMessage` schema (`schemas.py`, not
under src/); the contact endpoint stores the submitted fields verbatim. -/
structure ContactMessage where
  name : String
  email : String
  message : String
deriving Repr, DecidableEq

/-- The document store: the two collections the verified endpoints touch. -/
structure DbState where
  user : List UserDoc
  contactmessage : List ContactMessage
deriving Repr, DecidableEq

/-! ## Store operations (`db[...]` calls in src/main.py; `create_document`
is from `database.py`, absent from the snapshot, modelled from the spec) -/

/-- `db["user"].find_one({"email": e})`: the first document whose `email`
field is present and equal to `e`. -/
def find_one_user_by_email (st : List UserDoc) (e : String) : Option UserDoc :=
  st.find? (fun u => decide (u.email = some e))

/-- A fresh store-assigned id: strictly greater than every id in use. -/
def freshUserId (st : List UserDoc) : Nat :=
  (st.map (fun u => u._id)).foldr max 0 + 1

/-- The document a `UserSchema` is stored as, under id `id`. -/
def userDocOfSchema (id : Nat) (u : UserSchema) : UserDoc :=
  { _id := id, name := some u.name, email := some u.email,
    password_hash := some u.password_hash, salt := some u.salt,
    is_active := some u.is_active, tokens := u.tokens }

/-- Modelled from the spec: `create_document("user", new_user)` from
`database.py` (not under src/) — §4.2 `insert_user(User) -> id`: insert the
document, the store assigning a fresh opaque id, and return the id. -/
def create_document_user (st : List UserDoc) (u : UserSchema) : Nat × List UserDoc :=
  let id := freshUserId st
  (id, st ++ [userDocOfSchema id u])

/-- `db["user"].update_one({"_id": id}, {"$push": {"tokens": tok}})`: append
`tok` to the `tokens` array of the first document with the given id. -/
def update_one_push (st : List UserDoc) (id : Nat) (tok : String) : List UserDoc :=
  match st with
  | [] => []
  | u :: rest =>
      if u._id = id then { u with tokens := u.tokens ++ [tok] } :: rest
      else u :: update_one_push rest id tok

/-- Modelled from the spec: `create_document("contactmessage", payload)` from
`database.py` (not under src/) — §4.1/§6: when the store handle is absent the
operation degrades to a propagated `StoreUnavailable`, not a crash. -/
def create_document_contactmessage (db : Option DbState) (m : ContactMessage) :
    Except ApiError DbState :=
  match db with
  | none => .error .storeUnavailable
  | some st => .ok { st with contactmessage := st.contactmessage ++ [m] }

/-- Python truthiness of an optional string: `None` and `""` are falsy. -/
def pyFalsyOpt : Option String → Bool
  | none => true
  | some s => decide (s = "")

/-! ## The handlers (src/main.py lines 71-134). The random values the
source draws — `secrets.token_hex(16)` inside `_hash_password`, and
`secrets.token_urlsafe(32)` for the bearer token — enter as the
`saltRand` / `tokenRand` parameters. -/

/-- `signup` (src/main.py lines 71-93): reject when the store handle is
unconfigured; look up the lower-cased email and reject a duplicate; hash the
password with a fresh salt; insert the new user with empty `tokens`; push
one fresh token onto it; answer with token and profile fields. -/
def signup (db : Option DbState) (payload : SignupRequest)
    (saltRand : List Nat) (tokenRand : String) :
    Except ApiError AuthResponse × Option DbState :=
  match db with
  | none => (.error (.httpException 500 "Database not configured"), none)
  | some st =>
    match find_one_user_by_email st.user (str_lower payload.email) with
    | some _ => (.error (.httpException 400 "Email already registered"), some st)
    | none =>
      let hs := _hash_password payload.password none saltRand
      let new_user : UserSchema :=
        { name := payload.name, email := (str_lower payload.email),
          password_hash := hs.1, salt := hs.2,
          is_active := true, tokens := [] }
      let ins := create_document_user st.user new_user
      let token := tokenRand
      (.ok { token := token, name := new_user.name, email := new_user.email },
       some { st with user := update_one_push ins.2 ins.1 token })

/-- `login` (src/main.py lines 96-112): reject when the store handle is
unconfigured; look up the lower-cased email; answer 401 "Invalid
credentials" when the user is absent, when the stored hash or salt is falsy,
or when the derived hash differs; otherwise push one fresh token and answer
with it and the stored profile fields, defaulting absent ones to "". -/
def login (db : Option DbState) (payload : LoginRequest)
    (saltRand : List Nat) (tokenRand : String) :
    Except ApiError AuthResponse × Option DbState :=
  match db with
  | none => (.error (.httpException 500 "Database not configured"), none)
  | some st =>
    match find_one_user_by_email st.user (str_lower payload.email) with
    | none => (.error (.httpException 401 "Invalid credentials"), some st)
    | some user =>
      let stored_hash := user.password_hash
      let salt := user.salt
      if pyFalsyOpt stored_hash || pyFalsyOpt salt then
        (.error (.httpException 401 "Invalid credentials"), some st)
      else
        let computed := (_hash_password payload.password (some (salt.getD "")) saltRand).1
        if computed = stored_hash.getD "" then
          let token := tokenRand
          (.ok { token := token, name := user.name.getD "", email := user.email.getD "" },
           some { st with user := update_one_push st.user user._id token })
        else
          (.error (.httpException 401 "Invalid credentials"), some st)

/-- `submit_contact` (src/main.py lines 131-134): store the message through
`create_document` — with no store-handle check of its own — and answer ok. -/
def submit_contact (db : Option DbState) (payload : ContactMessage) :
    Except ApiError Unit × Option DbState :=
  match create_document_contactmessage db payload with
  | .error e => (.error e, db)
  | .ok st => (.ok (), some st)

/-! ## Framework-level body validation (pydantic runs before the handler) -/

/-- Split a character list at every occurrence of `c`. -/
def splitCharList (c : Char) : List Char → List (List Char)
  | [] => [[]]
  | a :: rest =>
      match splitCharList c rest with
      | h :: t => if a = c then [] :: h :: t else (a :: h) :: t
      | [] => if a = c then [[], []] else [[a]]

/-- Modelled from the spec: pydantic's `EmailStr` well-formedness check
(library code, not in src/) — the email must be `local@domain` with a
non-empty local part and a dotted non-empty domain. -/
def isValidEmail (e : String) : Bool :=
  match splitCharList '@' e.data with
  | [l, d] => !l.isEmpty && !d.isEmpty && d.contains '.'
  | _ => false

/-- The signup route as exposed: pydantic validates the body (the `EmailStr`
field) and rejects a malformed one before the handler runs; the password
field is a plain unconstrained `str`. -/
def signupRoute (db : Option DbState) (payload : SignupRequest)
    (saltRand : List Nat) (tokenRand : String) :
    Except ApiError AuthResponse × Option DbState :=
  if isValidEmail payload.email then signup db payload saltRand tokenRand
  else (.error (.validationError "email"), db)

/-- The login route as exposed: same framework validation as signup. -/
def loginRoute (db : Option DbState) (payload : LoginRequest)
    (saltRand : List Nat) (tokenRand : String) :
    Except ApiError AuthResponse × Option DbState :=
  if isValidEmail payload.email then login db payload saltRand tokenRand
  else (.error (.validationError "email"), db)

/-! ## Token accounting -/

/-- Total number of issued tokens across the user collection. -/
def userTokenCount (st : List UserDoc) : Nat :=
  (st.map (fun u => u.tokens.length)).sum

/-- Position-wise token preservation: the collection only grows, and every
existing document's token list is extended, never truncated or rewritten. -/
def tokensPreserved (st st' : List UserDoc) : Prop :=
  st.length ≤ st'.length ∧
  ∀ i, i < st.length →
    ∃ suf, (st'.getD i default).tokens = (st.getD i default).tokens ++ suf

/-! ## Store-operation lemmas -/

theorem mem_le_foldr_max (l : List Nat) (x : Nat) (hx : x ∈ l) :
    x ≤ l.foldr max 0 := by
  induction l with
  | nil => cases hx
  | cons a t ih =>
      rcases List.mem_cons.mp hx with h | h
      · subst h; exact le_max_left _ _
      · exact le_trans (ih h) (le_max_right _ _)

theorem _id_lt_freshUserId (st : List UserDoc) (u : UserDoc) (hu : u ∈ st) :
    u._id < freshUserId st := by
  have : u._id ≤ (st.map (fun v => v._id)).foldr max 0 :=
    mem_le_foldr_max _ _ (List.mem_map_of_mem _ hu)
  exact Nat.lt_succ_of_le this

theorem update_one_push_length (st : List UserDoc) (id : Nat) (tok : String) :
    (update_one_push st id tok).length = st.length := by
  induction st with
  | nil => rfl
  | cons a t ih =>
      by_cases h : a._id = id
      · simp [update_one_push, h]
      · simp [update_one_push, h, ih]

theorem update_one_push_append (st : List UserDoc) (u : UserDoc) (tok : String)
    (h : ∀ v ∈ st, v._id ≠ u._id) :
    update_one_push (st ++ [u]) u._id tok
      = st ++ [{ u with tokens := u.tokens ++ [tok] }] := by
  induction st with
  | nil => simp [update_one_push]
  | cons a t ih =>
      have ha : a._id ≠ u._id := h a (List.mem_cons_self _ _)
      simp only [List.cons_append, update_one_push, if_neg ha, List.append_eq]
      rw [ih (fun v hv => h v (List.mem_cons_of_mem _ hv))]

theorem find_one_append_of_none (st l : List UserDoc) (e : String)
    (h : find_one_user_by_email st e = none) :
    find_one_user_by_email (st ++ l) e = find_one_user_by_email l e := by
  simp only [find_one_user_by_email] at h ⊢
  rw [List.find?_append, h, Option.none_or]

theorem userTokenCount_append (st : List UserDoc) (u : UserDoc) :
    userTokenCount (st ++ [u]) = userTokenCount st + u.tokens.length := by
  simp [userTokenCount]

theorem userTokenCount_update_one_push (st : List UserDoc) (id : Nat) (tok : String)
    (h : ∃ v ∈ st, v._id = id) :
    userTokenCount (update_one_push st id tok) = userTokenCount st + 1 := by
  induction st with
  | nil => rcases h with ⟨v, hv, _⟩; cases hv
  | cons a t ih =>
      by_cases ha : a._id = id
      · simp [update_one_push, ha, userTokenCount]; omega
      · have hex : ∃ v ∈ t, v._id = id := by
          rcases h with ⟨v, hv, hveq⟩
          rcases List.mem_cons.mp hv with h' | h'
          · subst h'; exact absurd hveq ha
          · exact ⟨v, h', hveq⟩
        have hrec := ih hex
        simp [userTokenCount] at hrec ⊢
        simp [update_one_push, ha, userTokenCount]
        omega

theorem tokensPreserved_refl (st : List UserDoc) : tokensPreserved st st :=
  ⟨le_refl _, fun i _ => ⟨[], by simp⟩⟩

theorem tokensPreserved_append (st l : List UserDoc) :
    tokensPreserved st (st ++ l) := by
  refine ⟨by simp, fun i hi => ⟨[], ?_⟩⟩
  rw [List.getD_append _ _ _ _ hi]
  simp

theorem tokensPreserved_update_one_push (st : List UserDoc) (id : Nat) (tok : String) :
    tokensPreserved st (update_one_push st id tok) := by
  constructor
  · rw [update_one_push_length]
  · intro i hi
    induction st generalizing i with
    | nil => cases hi
    | cons a t ih =>
        by_cases ha : a._id = id
        · simp only [update_one_push, if_pos ha]
          match i with
          | 0 => exact ⟨[tok], by simp⟩
          | i + 1 => exact ⟨[], by simp⟩
        · simp only [update_one_push, if_neg ha]
          match i with
          | 0 => exact ⟨[], by simp⟩
          | i + 1 =>
              have := ih i (by simpa using Nat.lt_of_succ_lt_succ hi)
              simpa using this

theorem tokensPreserved_trans {s1 s2 s3 : List UserDoc}
    (h12 : tokensPreserved s1 s2) (h23 : tokensPreserved s2 s3) :
    tokensPreserved s1 s3 := by
  refine ⟨le_trans h12.1 h23.1, fun i hi => ?_⟩
  rcases h12.2 i hi with ⟨u1, hu1⟩
  rcases h23.2 i (lt_of_lt_of_le hi h12.1) with ⟨u2, hu2⟩
  exact ⟨u1 ++ u2, by rw [hu2, hu1, List.append_assoc]⟩

/-! ## Handler characterizations -/

/-- The user document a successful signup leaves in the store: the inserted
record, fresh-id'd, with the one signup token pushed onto its initially
empty `tokens`. -/
def signupDoc (stu : List UserDoc) (p : SignupRequest) (sR : List Nat) (tR : String) : UserDoc :=
  { _id := freshUserId stu,
    name := some p.name,
    email := some (str_lower p.email),
    password_hash := some (_hash_password p.password none sR).1,
    salt := some (_hash_password p.password none sR).2,
    is_active := some true,
    tokens := [tR] }

theorem signup_db_none (p : SignupRequest) (sR : List Nat) (tR : String) :
    signup none p sR tR
      = (.error (.httpException 500 "Database not configured"), none) := rfl

theorem signup_duplicate (st : DbState) (p : SignupRequest) (sR : List Nat)
    (tR : String) (u : UserDoc)
    (h : find_one_user_by_email st.user (str_lower p.email) = some u) :
    signup (some st) p sR tR
      = (.error (.httpException 400 "Email already registered"), some st) := by
  simp [signup, h]

theorem signup_fresh (st : DbState) (p : SignupRequest) (sR : List Nat) (tR : String)
    (h : find_one_user_by_email st.user (str_lower p.email) = none) :
    signup (some st) p sR tR
      = (.ok ⟨tR, p.name, (str_lower p.email)⟩,
         some { st with user := st.user ++ [signupDoc st.user p sR tR] }) := by
  simp only [signup, h, create_document_user, userDocOfSchema]
  rw [update_one_push_append _ _ _
    (fun v hv => Nat.ne_of_lt (_id_lt_freshUserId st.user v hv))]
  simp [signupDoc]

theorem login_db_none (lp : LoginRequest) (sR : List Nat) (tR : String) :
    login none lp sR tR
      = (.error (.httpException 500 "Database not configured"), none) := rfl

theorem login_not_found (st : DbState) (lp : LoginRequest) (sR : List Nat) (tR : String)
    (h : find_one_user_by_email st.user (str_lower lp.email) = none) :
    login (some st) lp sR tR
      = (.error (.httpException 401 "Invalid credentials"), some st) := by
  simp [login, h]

theorem login_falsy (st : DbState) (lp : LoginRequest) (sR : List Nat) (tR : String)
    (u : UserDoc)
    (hfind : find_one_user_by_email st.user (str_lower lp.email) = some u)
    (h : pyFalsyOpt u.password_hash = true ∨ pyFalsyOpt u.salt = true) :
    login (some st) lp sR tR
      = (.error (.httpException 401 "Invalid credentials"), some st) := by
  rcases h with h | h <;> simp [login, hfind, h]

theorem login_mismatch (st : DbState) (lp : LoginRequest) (sR : List Nat) (tR : String)
    (u : UserDoc)
    (hfind : find_one_user_by_email st.user (str_lower lp.email) = some u)
    (hh : pyFalsyOpt u.password_hash = false)
    (hs : pyFalsyOpt u.salt = false)
    (hne : (_hash_password lp.password (some (u.salt.getD "")) sR).1
      ≠ u.password_hash.getD "") :
    login (some st) lp sR tR
      = (.error (.httpException 401 "Invalid credentials"), some st) := by
  simp [login, hfind, hh, hs, hne]

theorem login_success (st : DbState) (lp : LoginRequest) (sR : List Nat) (tR : String)
    (u : UserDoc)
    (hfind : find_one_user_by_email st.user (str_lower lp.email) = some u)
    (hh : pyFalsyOpt u.password_hash = false)
    (hs : pyFalsyOpt u.salt = false)
    (heq : (_hash_password lp.password (some (u.salt.getD "")) sR).1
      = u.password_hash.getD "") :
    login (some st) lp sR tR
      = (.ok ⟨tR, u.name.getD "", u.email.getD ""⟩,
         some { st with user := update_one_push st.user u._id tR }) := by
  simp [login, hfind, hh, hs, heq]

/-! ## Claim theorems -/

/-- C1: for every login request, if the normalized email matches no stored
user, or the stored record lacks a password_hash/salt pair, or the hash
derived from the supplied password and the stored salt differs from the
stored hash, the operation fails with the same observable
`HTTPException 401 "Invalid credentials"` in all three cases, so the caller
cannot distinguish an unknown email from a wrong password. -/
theorem login_failure_indistinguishable
    (st : DbState) (payload : LoginRequest) (saltRand : List Nat) (tokenRand : String)
    (h : match find_one_user_by_email st.user (str_lower payload.email) with
      | none => True
      | some u => pyFalsyOpt u.password_hash = true ∨ pyFalsyOpt u.salt = true ∨
          (_hash_password payload.password (some (u.salt.getD "")) saltRand).1
            ≠ u.password_hash.getD "") :
    login (some st) payload saltRand tokenRand
      = (Except.error (ApiError.httpException 401 "Invalid credentials"), some st) := by
  cases hfind : find_one_user_by_email st.user (str_lower payload.email) with
  | none => exact login_not_found _ _ _ _ hfind
  | some u =>
      rw [hfind] at h
      rcases h with h | h | h
      · exact login_falsy _ _ _ _ _ hfind (Or.inl h)
      · exact login_falsy _ _ _ _ _ hfind (Or.inr h)
      · cases hh : pyFalsyOpt u.password_hash with
        | true => exact login_falsy _ _ _ _ _ hfind (Or.inl hh)
        | false =>
            cases hs : pyFalsyOpt u.salt with
            | true => exact login_falsy _ _ _ _ _ hfind (Or.inr hs)
            | false => exact login_mismatch _ _ _ _ _ hfind hh hs h

/-- C1 witness: a login against an empty store — the unknown-email case —
produces exactly the uniform 401 error. -/
theorem login_failure_indistinguishable_witness :
    login (some ⟨[], []⟩) ⟨"nobody@y.com", "anything"⟩ [] "tok"
      = (Except.error (ApiError.httpException 401 "Invalid credentials"),
         some ⟨[], []⟩) :=
  login_failure_indistinguishable ⟨[], []⟩ ⟨"nobody@y.com", "anything"⟩ [] "tok"
    (by trivial)

/-- C2: `_hash_password` is deterministic — equal inputs give identical
output — and is PBKDF2 with 100,000 iterations of the HMAC-SHA256
pseudorandom function, producing a fixed-length (64 hex characters,
32 bytes) digest; its first iteration is a plain HMAC application. -/
theorem derive_credential_deterministic_kdf :
    (∀ p s r, _hash_password p s r = _hash_password p s r)
  ∧ (∀ p s r, (_hash_password p s r).1
      = bytesToHex (pbkdf2HmacSha256 (strBytes p)
          (strBytes (_hash_password p s r).2) 100000))
  ∧ (∀ p s r, ((_hash_password p s r).1).length = 64)
  ∧ (∀ pw salt, pbkdf2HmacSha256 pw salt 1 = hmacSha256 pw (salt ++ [0, 0, 0, 1])) :=
  ⟨fun _ _ _ => rfl, fun _ _ _ => rfl, fun p s r => hash_hex_length p s r,
   fun _ _ => rfl⟩

/-- C3: a registration whose normalized email is already stored fails with
the 400 duplicate-email error and leaves the store untouched; consequently a
second registration with the same normalized email after a successful first
one fails the same way. -/
theorem signup_duplicate_email_rejected :
    (∀ (st : DbState) (p : SignupRequest) (sR : List Nat) (tR : String) (u : UserDoc),
       find_one_user_by_email st.user (str_lower p.email) = some u →
       signup (some st) p sR tR
         = (Except.error (ApiError.httpException 400 "Email already registered"),
            some st))
  ∧ (∀ (st : DbState) (p1 p2 : SignupRequest) (s1 s2 : List Nat) (t1 t2 : String),
       find_one_user_by_email st.user (str_lower p1.email) = none →
       (str_lower p2.email) = (str_lower p1.email) →
       signup ((signup (some st) p1 s1 t1).2) p2 s2 t2
         = (Except.error (ApiError.httpException 400 "Email already registered"),
            (signup (some st) p1 s1 t1).2)) := by
  constructor
  · intro st p sR tR u h
    exact signup_duplicate st p sR tR u h
  · intro st p1 p2 s1 s2 t1 t2 h1 h2
    rw [signup_fresh st p1 s1 t1 h1]
    apply signup_duplicate _ _ _ _ (signupDoc st.user p1 s1 t1)
    rw [h2]
    show find_one_user_by_email (st.user ++ [signupDoc st.user p1 s1 t1])
      (str_lower p1.email) = some (signupDoc st.user p1 s1 t1)
    rw [find_one_append_of_none _ _ _ h1]
    simp [find_one_user_by_email, signupDoc]

/-- C3 witness: the duplicate check fires on a concrete one-user store, and
the second of two same-email registrations on an empty store fails. -/
theorem signup_duplicate_email_rejected_witness :
    signup (some ⟨[⟨1, some "A", some "x@y.com", some "h", some "s", some true, []⟩], []⟩)
        ⟨"B", "x@y.com", "pw2"⟩ [] "t"
      = (Except.error (ApiError.httpException 400 "Email already registered"),
         some ⟨[⟨1, some "A", some "x@y.com", some "h", some "s", some true, []⟩], []⟩)
  ∧ signup ((signup (some ⟨[], []⟩) ⟨"A", "X@Y.com", "pw1"⟩ [] "t1").2)
        ⟨"B", "x@y.com", "pw2"⟩ [] "t2"
      = (Except.error (ApiError.httpException 400 "Email already registered"),
         (signup (some ⟨[], []⟩) ⟨"A", "X@Y.com", "pw1"⟩ [] "t1").2) :=
  ⟨signup_duplicate_email_rejected.1 _ _ _ _
      ⟨1, some "A", some "x@y.com", some "h", some "s", some true, []⟩ (by decide),
   signup_duplicate_email_rejected.2 _ _ _ _ _ _ _ rfl (by decide)⟩

/-- C5: a registration on a store with no user under the normalized email
succeeds following the contract — a fresh 16-byte (32 hex character) salt,
the hash derived from password and that salt, a persisted record whose
tokens start empty and then carry exactly the one fresh token, and the
response `(token, name, lower-cased email)`. -/
theorem signup_contract (st : DbState) (p : SignupRequest) (sR : List Nat) (tR : String)
    (h : find_one_user_by_email st.user (str_lower p.email) = none) :
    signup (some st) p sR tR
      = (Except.ok ⟨tR, p.name, (str_lower p.email)⟩,
         some { st with user := st.user ++
           [{ _id := freshUserId st.user,
              name := some p.name,
              email := some (str_lower p.email),
              password_hash := some (_hash_password p.password none sR).1,
              salt := some (_hash_password p.password none sR).2,
              is_active := some true,
              tokens := [tR] }] })
    ∧ (_hash_password p.password none sR).2 = token_hex 16 sR
    ∧ (token_hex 16 sR).length = 32 := by
  refine ⟨?_, rfl, by simpa using token_hex_length 16 sR⟩
  simpa [signupDoc] using signup_fresh st p sR tR h

/-- C5 witness: the contract at a concrete registration on the empty store. -/
theorem signup_contract_witness :
    signup (some ⟨[], []⟩) ⟨"A", "X@Y.com", "pw"⟩ [7] "tok"
      = (Except.ok ⟨"tok", "A", (str_lower "X@Y.com")⟩,
         some ⟨[{ _id := freshUserId [],
                  name := some "A",
                  email := some (str_lower "X@Y.com"),
                  password_hash := some (_hash_password "pw" none [7]).1,
                  salt := some (_hash_password "pw" none [7]).2,
                  is_active := some true,
                  tokens := ["tok"] }], []⟩)
    ∧ (_hash_password "pw" none [7]).2 = token_hex 16 [7]
    ∧ (token_hex 16 [7]).length = 32 :=
  signup_contract ⟨[], []⟩ ⟨"A", "X@Y.com", "pw"⟩ [7] "tok" rfl

/-- Hashing a password against the salt that an earlier fresh-salt hashing
chose reproduces the stored digest, whatever the new call's random bytes. -/
theorem rehash_with_stored_salt (pw : String) (sR sR2 : List Nat) :
    (_hash_password pw (some ((_hash_password pw none sR).2)) sR2).1
      = (_hash_password pw none sR).1 := by
  simp [_hash_password, token_hex_ne_empty sR]

theorem pyFalsyOpt_some_false (s : String) (h : s ≠ "") :
    pyFalsyOpt (some s) = false := by
  simp [pyFalsyOpt, h]

theorem pyFalsyOpt_signup_hash (p : SignupRequest) (sR : List Nat) :
    pyFalsyOpt (some (_hash_password p.password none sR).1) = false :=
  pyFalsyOpt_some_false _ (hash_hex_ne_empty p.password none sR)

theorem pyFalsyOpt_signup_salt (p : SignupRequest) (sR : List Nat) :
    pyFalsyOpt (some (_hash_password p.password none sR).2) = false :=
  pyFalsyOpt_some_false _ (token_hex_ne_empty sR)

/-- After a fresh-email signup, the login lookup under the same normalized
email finds exactly the just-inserted document. -/
theorem find_after_signup (st : DbState) (p : SignupRequest) (sR : List Nat)
    (tR : String) (e2 : String)
    (h1 : find_one_user_by_email st.user (str_lower p.email) = none)
    (h2 : str_lower e2 = str_lower p.email) :
    find_one_user_by_email (st.user ++ [signupDoc st.user p sR tR]) (str_lower e2)
      = some (signupDoc st.user p sR tR) := by
  rw [h2, find_one_append_of_none _ _ _ h1]
  simp [find_one_user_by_email, signupDoc]

/-- C6: email matching is case-insensitive via lower-casing — a login whose
email lower-cases to the same string as a registration's succeeds with that
password, and both handlers depend on the email only through its lower-cased
form. -/
theorem email_case_insensitive :
    (∀ (st : DbState) (p : SignupRequest) (sR : List Nat) (t1 : String)
        (e2 : String) (sR2 : List Nat) (t2 : String),
       find_one_user_by_email st.user (str_lower p.email) = none →
       str_lower e2 = str_lower p.email →
       (login ((signup (some st) p sR t1).2) ⟨e2, p.password⟩ sR2 t2).1
         = Except.ok ⟨t2, p.name, str_lower p.email⟩)
  ∧ (∀ (st : DbState) (n e e' pw : String) (sR : List Nat) (tR : String),
       str_lower e = str_lower e' →
       signup (some st) ⟨n, e, pw⟩ sR tR = signup (some st) ⟨n, e', pw⟩ sR tR)
  ∧ (∀ (st : DbState) (e e' pw : String) (sR : List Nat) (tR : String),
       str_lower e = str_lower e' →
       login (some st) ⟨e, pw⟩ sR tR = login (some st) ⟨e', pw⟩ sR tR) := by
  refine ⟨?_, ?_, ?_⟩
  · intro st p sR t1 e2 sR2 t2 h1 h2
    rw [signup_fresh st p sR t1 h1]
    have hfind := find_after_signup st p sR t1 e2 h1 h2
    have hlog := login_success ⟨st.user ++ [signupDoc st.user p sR t1], st.contactmessage⟩
      ⟨e2, p.password⟩ sR2 t2 (signupDoc st.user p sR t1) hfind
      (pyFalsyOpt_signup_hash p sR) (pyFalsyOpt_signup_salt p sR)
      (rehash_with_stored_salt p.password sR sR2)
    rw [hlog]
    simp [signupDoc]
  · intro st n e e' pw sR tR h
    simp only [signup]
    rw [h]
  · intro st e e' pw sR tR h
    simp only [login]
    rw [h]

/-- C6 witness: registering `"X@Y.com"` on the empty store and logging in as
`"x@y.com"` with the same password succeeds; the handlers agree on two
case-variants of one email. -/
theorem email_case_insensitive_witness :
    (login ((signup (some ⟨[], []⟩) ⟨"A", "X@Y.com", "pw"⟩ [] "t1").2)
        ⟨"x@y.com", "pw"⟩ [] "t2").1
      = Except.ok ⟨"t2", "A", str_lower "X@Y.com"⟩
  ∧ signup (some ⟨[], []⟩) ⟨"A", "X@Y.com", "pw"⟩ [] "t"
      = signup (some ⟨[], []⟩) ⟨"A", "x@y.Com", "pw"⟩ [] "t"
  ∧ login (some ⟨[], []⟩) ⟨"X@Y.com", "pw"⟩ [] "t"
      = login (some ⟨[], []⟩) ⟨"x@y.Com", "pw"⟩ [] "t" :=
  ⟨email_case_insensitive.1 ⟨[], []⟩ ⟨"A", "X@Y.com", "pw"⟩ [] "t1" "x@y.com" [] "t2"
      rfl (by decide),
   email_case_insensitive.2.1 ⟨[], []⟩ "A" "X@Y.com" "x@y.Com" "pw" [] "t" (by decide),
   email_case_insensitive.2.2 ⟨[], []⟩ "X@Y.com" "x@y.Com" "pw" [] "t" (by decide)⟩

/-- C8: with the store handle unconfigured (`db is None`), signup and login
answer the explicit 500 "Database not configured" error, and contact
submission propagates the modelled adapter's StoreUnavailable — all three
fail with an explicit error value rather than crashing, and touch no
store. -/
theorem store_unavailable_degrades :
    (∀ (p : SignupRequest) (sR : List Nat) (tR : String),
       signup none p sR tR
         = (Except.error (ApiError.httpException 500 "Database not configured"), none))
  ∧ (∀ (lp : LoginRequest) (sR : List Nat) (tR : String),
       login none lp sR tR
         = (Except.error (ApiError.httpException 500 "Database not configured"), none))
  ∧ (∀ (m : ContactMessage),
       submit_contact none m = (Except.error ApiError.storeUnavailable, none)) :=
  ⟨fun _ _ _ => rfl, fun _ _ _ => rfl, fun _ => rfl⟩

/-- C9: whenever signup or login fails — unconfigured store, duplicate
email, unknown email, missing hash/salt, or hash mismatch — the store handle
comes back exactly as it went in: nothing inserted, no token pushed, no
field modified. -/
theorem failure_leaves_store_unchanged :
    (∀ (db : Option DbState) (p : SignupRequest) (sR : List Nat) (tR : String)
        (e : ApiError) (db' : Option DbState),
       signup db p sR tR = (Except.error e, db') → db' = db)
  ∧ (∀ (db : Option DbState) (lp : LoginRequest) (sR : List Nat) (tR : String)
        (e : ApiError) (db' : Option DbState),
       login db lp sR tR = (Except.error e, db') → db' = db) := by
  constructor
  · intro db p sR tR e db' h
    match db with
    | none =>
        rw [signup_db_none] at h
        exact ((Prod.ext_iff.mp h).2).symm
    | some st =>
        cases hfind : find_one_user_by_email st.user (str_lower p.email) with
        | some u =>
            rw [signup_duplicate st p sR tR u hfind] at h
            exact ((Prod.ext_iff.mp h).2).symm
        | none =>
            rw [signup_fresh st p sR tR hfind] at h
            simpa using (Prod.ext_iff.mp h).1
  · intro db lp sR tR e db' h
    match db with
    | none =>
        rw [login_db_none] at h
        exact ((Prod.ext_iff.mp h).2).symm
    | some st =>
        cases hfind : find_one_user_by_email st.user (str_lower lp.email) with
        | none =>
            rw [login_not_found st lp sR tR hfind] at h
            exact ((Prod.ext_iff.mp h).2).symm
        | some u =>
            cases hh : pyFalsyOpt u.password_hash with
            | true =>
                rw [login_falsy st lp sR tR u hfind (Or.inl hh)] at h
                exact ((Prod.ext_iff.mp h).2).symm
            | false =>
                cases hs : pyFalsyOpt u.salt with
                | true =>
                    rw [login_falsy st lp sR tR u hfind (Or.inr hs)] at h
                    exact ((Prod.ext_iff.mp h).2).symm
                | false =>
                    by_cases heq : (_hash_password lp.password
                        (some (u.salt.getD "")) sR).1 = u.password_hash.getD ""
                    · rw [login_success st lp sR tR u hfind hh hs heq] at h
                      simpa using (Prod.ext_iff.mp h).1
                    · rw [login_mismatch st lp sR tR u hfind hh hs heq] at h
                      exact ((Prod.ext_iff.mp h).2).symm

/-- C9 witness: a concrete duplicate-email signup and a concrete
unknown-email login each hand back the same store they were given. -/
theorem failure_leaves_store_unchanged_witness :
    (signup (some ⟨[⟨1, some "A", some "x@y.com", some "h", some "s", some true, []⟩], []⟩)
        ⟨"B", "x@y.com", "pw2"⟩ [] "t").2
      = some ⟨[⟨1, some "A", some "x@y.com", some "h", some "s", some true, []⟩], []⟩
  ∧ (login (some ⟨[], []⟩) ⟨"a@b.c", "pw"⟩ [] "t").2 = some ⟨[], []⟩ :=
  ⟨failure_leaves_store_unchanged.1
      (some ⟨[⟨1, some "A", some "x@y.com", some "h", some "s", some true, []⟩], []⟩)
      ⟨"B", "x@y.com", "pw2"⟩ [] "t"
      (.httpException 400 "Email already registered") _ rfl,
   failure_leaves_store_unchanged.2 (some ⟨[], []⟩) ⟨"a@b.c", "pw"⟩ [] "t"
      (.httpException 401 "Invalid credentials") _ rfl⟩

/-- C10: a successful signup answers with the lower-cased form of the
supplied email, and a successful login answers with the stored record's name
and email defaulted to the empty string when absent, never failing on the
missing field. -/
theorem response_normalization :
    (∀ (st : DbState) (p : SignupRequest) (sR : List Nat) (tR : String),
       find_one_user_by_email st.user (str_lower p.email) = none →
       (signup (some st) p sR tR).1 = Except.ok ⟨tR, p.name, str_lower p.email⟩)
  ∧ (∀ (st : DbState) (lp : LoginRequest) (sR : List Nat) (tR : String) (u : UserDoc),
       find_one_user_by_email st.user (str_lower lp.email) = some u →
       pyFalsyOpt u.password_hash = false →
       pyFalsyOpt u.salt = false →
       (_hash_password lp.password (some (u.salt.getD "")) sR).1
         = u.password_hash.getD "" →
       (login (some st) lp sR tR).1
         = Except.ok ⟨tR, u.name.getD "", u.email.getD ""⟩) := by
  constructor
  · intro st p sR tR h
    rw [signup_fresh st p sR tR h]
  · intro st lp sR tR u hfind hh hs heq
    rw [login_success st lp sR tR u hfind hh hs heq]

/-- C10 witness: a concrete signup with a mixed-case email answers the
lower-cased form, and a concrete login against a record with no `name`
field answers the empty string for it. -/
theorem response_normalization_witness :
    (signup (some ⟨[], []⟩) ⟨"A", "X@Y.com", "pw"⟩ [] "tok").1
      = Except.ok ⟨"tok", "A", str_lower "X@Y.com"⟩
  ∧ (login (some ⟨[⟨1, none, some "a@b.c",
        some (_hash_password "pw" (some "aa") []).1, some "aa", some true, []⟩], []⟩)
        ⟨"a@b.c", "pw"⟩ [] "t").1
      = Except.ok ⟨"t", "", "a@b.c"⟩ :=
  ⟨response_normalization.1 ⟨[], []⟩ ⟨"A", "X@Y.com", "pw"⟩ [] "tok" rfl,
   response_normalization.2
      ⟨[⟨1, none, some "a@b.c", some (_hash_password "pw" (some "aa") []).1,
        some "aa", some true, []⟩], []⟩
      ⟨"a@b.c", "pw"⟩ [] "t"
      ⟨1, none, some "a@b.c", some (_hash_password "pw" (some "aa") []).1,
       some "aa", some true, []⟩
      rfl (pyFalsyOpt_some_false _ (hash_hex_ne_empty "pw" (some "aa") []))
      (by decide) rfl⟩

/-- C4: every successful authentication appends exactly one token — a
fresh-email signup and a successful login each raise the store's total token
count by one and only ever extend existing token lists — and a successful
login right after registration returns a token distinct from the
registration token, leaving that user's token list at `[t1, t2]`. -/
theorem auth_appends_exactly_one_token :
    (∀ (st : DbState) (p : SignupRequest) (sR : List Nat) (tR : String),
       find_one_user_by_email st.user (str_lower p.email) = none →
       ∃ st', (signup (some st) p sR tR).2 = some st'
         ∧ userTokenCount st'.user = userTokenCount st.user + 1
         ∧ tokensPreserved st.user st'.user)
  ∧ (∀ (st : DbState) (lp : LoginRequest) (sR : List Nat) (tR : String) (u : UserDoc),
       find_one_user_by_email st.user (str_lower lp.email) = some u →
       pyFalsyOpt u.password_hash = false →
       pyFalsyOpt u.salt = false →
       (_hash_password lp.password (some (u.salt.getD "")) sR).1
         = u.password_hash.getD "" →
       ∃ st', (login (some st) lp sR tR).2 = some st'
         ∧ userTokenCount st'.user = userTokenCount st.user + 1
         ∧ tokensPreserved st.user st'.user)
  ∧ (∀ (st : DbState) (p : SignupRequest) (s1 s2 : List Nat) (t1 t2 e2 : String),
       find_one_user_by_email st.user (str_lower p.email) = none →
       str_lower e2 = str_lower p.email →
       t2 ≠ t1 →
       ∃ r st', login ((signup (some st) p s1 t1).2) ⟨e2, p.password⟩ s2 t2
           = (Except.ok r, some st')
         ∧ r.token = t2 ∧ r.token ≠ t1
         ∧ ∃ u, find_one_user_by_email st'.user (str_lower p.email) = some u
             ∧ u.tokens = [t1, t2]) := by
  refine ⟨?_, ?_, ?_⟩
  · intro st p sR tR h
    refine ⟨⟨st.user ++ [signupDoc st.user p sR tR], st.contactmessage⟩, ?_, ?_, ?_⟩
    · rw [signup_fresh st p sR tR h]
    · rw [userTokenCount_append]
      simp [signupDoc]
    · exact tokensPreserved_append _ _
  · intro st lp sR tR u hfind hh hs heq
    refine ⟨⟨update_one_push st.user u._id tR, st.contactmessage⟩, ?_, ?_,
      tokensPreserved_update_one_push _ _ _⟩
    · rw [login_success st lp sR tR u hfind hh hs heq]
    · exact userTokenCount_update_one_push st.user u._id tR
        ⟨u, List.mem_of_find?_eq_some hfind, rfl⟩
  · intro st p s1 s2 t1 t2 e2 h1 h2 ht
    rw [signup_fresh st p s1 t1 h1]
    have hne : ∀ v ∈ st.user, v._id ≠ (signupDoc st.user p s1 t1)._id :=
      fun v hv => Nat.ne_of_lt (_id_lt_freshUserId st.user v hv)
    have hupd := update_one_push_append st.user (signupDoc st.user p s1 t1) t2 hne
    have hfind := find_after_signup st p s1 t1 e2 h1 h2
    have hlog := login_success ⟨st.user ++ [signupDoc st.user p s1 t1], st.contactmessage⟩
      ⟨e2, p.password⟩ s2 t2 (signupDoc st.user p s1 t1) hfind
      (pyFalsyOpt_signup_hash p s1) (pyFalsyOpt_signup_salt p s1)
      (rehash_with_stored_salt p.password s1 s2)
    refine ⟨⟨t2, p.name, str_lower p.email⟩,
      ⟨st.user ++ [{ signupDoc st.user p s1 t1 with
          tokens := (signupDoc st.user p s1 t1).tokens ++ [t2] }],
       st.contactmessage⟩, ?_, rfl, ht, ?_⟩
    · rw [hlog]
      simp only [signupDoc] at hupd
      simp [signupDoc, hupd]
    · refine ⟨{ signupDoc st.user p s1 t1 with
          tokens := (signupDoc st.user p s1 t1).tokens ++ [t2] }, ?_, ?_⟩
      · show find_one_user_by_email (st.user ++ [_]) (str_lower p.email) = some _
        rw [find_one_append_of_none _ _ _ h1]
        simp [find_one_user_by_email, signupDoc]
      · simp [signupDoc]

/-- C4 witness: on concrete stores, one signup adds one token, one matching
login adds one token, and the signup-then-login pair leaves the user with
exactly the two distinct tokens. -/
theorem auth_appends_exactly_one_token_witness :
    (∃ st', (signup (some ⟨[], []⟩) ⟨"A", "x@y.com", "pw"⟩ [] "t").2 = some st'
       ∧ userTokenCount st'.user = userTokenCount ([] : List UserDoc) + 1
       ∧ tokensPreserved [] st'.user)
  ∧ (∃ st', (login (some ⟨[⟨1, none, some "a@b.c",
        some (_hash_password "pw" (some "aa") []).1, some "aa", some true, []⟩], []⟩)
        ⟨"a@b.c", "pw"⟩ [] "t").2 = some st'
       ∧ userTokenCount st'.user
           = userTokenCount [⟨1, none, some "a@b.c",
               some (_hash_password "pw" (some "aa") []).1, some "aa", some true, []⟩] + 1
       ∧ tokensPreserved [⟨1, none, some "a@b.c",
           some (_hash_password "pw" (some "aa") []).1, some "aa", some true, []⟩] st'.user)
  ∧ (∃ r st', login ((signup (some ⟨[], []⟩) ⟨"A", "X@Y.com", "pw"⟩ [] "t1").2)
        ⟨"x@y.com", "pw"⟩ [] "t2" = (Except.ok r, some st')
       ∧ r.token = "t2" ∧ r.token ≠ "t1"
       ∧ ∃ u, find_one_user_by_email st'.user (str_lower "X@Y.com") = some u
           ∧ u.tokens = ["t1", "t2"]) :=
  ⟨auth_appends_exactly_one_token.1 ⟨[], []⟩ ⟨"A", "x@y.com", "pw"⟩ [] "t" rfl,
   auth_appends_exactly_one_token.2.1
      ⟨[⟨1, none, some "a@b.c", some (_hash_password "pw" (some "aa") []).1,
        some "aa", some true, []⟩], []⟩
      ⟨"a@b.c", "pw"⟩ [] "t"
      ⟨1, none, some "a@b.c", some (_hash_password "pw" (some "aa") []).1,
       some "aa", some true, []⟩
      rfl (pyFalsyOpt_some_false _ (hash_hex_ne_empty "pw" (some "aa") []))
      (by decide) rfl,
   auth_appends_exactly_one_token.2.2 ⟨[], []⟩ ⟨"A", "X@Y.com", "pw"⟩ [] [] "t1" "t2"
      "x@y.com" rfl (by decide) (by decide)⟩

/-- C7 counterexample: a concrete signup whose password is the empty string
is not rejected — the body passes validation (the password field is an
unconstrained `str`), the handler runs, and registration succeeds. -/
theorem empty_password_accepted :
    (signupRoute (some ⟨[], []⟩) ⟨"A", "x@y.com", ""⟩ [] "tok").1
      = Except.ok ⟨"tok", "A", str_lower "x@y.com"⟩ := by
  have hv : isValidEmail "x@y.com" = true := by decide
  simp only [signupRoute, hv, if_true]
  rw [signup_fresh ⟨[], []⟩ ⟨"A", "x@y.com", ""⟩ [] "tok" rfl]

/-- C7 (amended): a request whose email fails the well-formedness check is
rejected with the validation error before any credential processing or
store access, for signup and login alike; an empty password, however, is
not rejected — the signup route with an empty password behaves exactly as
the signup handler. -/
theorem malformed_input_rejected :
    (∀ (db : Option DbState) (b : SignupRequest) (sR : List Nat) (tR : String),
       isValidEmail b.email = false →
       signupRoute db b sR tR = (Except.error (ApiError.validationError "email"), db))
  ∧ (∀ (db : Option DbState) (b : LoginRequest) (sR : List Nat) (tR : String),
       isValidEmail b.email = false →
       loginRoute db b sR tR = (Except.error (ApiError.validationError "email"), db))
  ∧ (∀ (db : Option DbState) (n e : String) (sR : List Nat) (tR : String),
       isValidEmail e = true →
       signupRoute db ⟨n, e, ""⟩ sR tR = signup db ⟨n, e, ""⟩ sR tR) := by
  refine ⟨fun db b sR tR h => ?_, fun db b sR tR h => ?_, fun db n e sR tR h => ?_⟩
  · simp [signupRoute, h]
  · simp [loginRoute, h]
  · simp [signupRoute, h]

/-- C7 (amended) witness: a concrete malformed email is rejected by both
routes with the store untouched, and a concrete empty password flows
through to the handler. -/
theorem malformed_input_rejected_witness :
    signupRoute (some ⟨[], []⟩) ⟨"A", "notanemail", "pw"⟩ [] "t"
      = (Except.error (ApiError.validationError "email"), some ⟨[], []⟩)
  ∧ loginRoute (some ⟨[], []⟩) ⟨"notanemail", "pw"⟩ [] "t"
      = (Except.error (ApiError.validationError "email"), some ⟨[], []⟩)
  ∧ signupRoute (some ⟨[], []⟩) ⟨"A", "x@y.com", ""⟩ [] "t"
      = signup (some ⟨[], []⟩) ⟨"A", "x@y.com", ""⟩ [] "t" :=
  ⟨malformed_input_rejected.1 (some ⟨[], []⟩) ⟨"A", "notanemail", "pw"⟩ [] "t" (by decide),
   malformed_input_rejected.2.1 (some ⟨[], []⟩) ⟨"notanemail", "pw"⟩ [] "t" (by decide),
   malformed_input_rejected.2.2 (some ⟨[], []⟩) "A" "x@y.com" [] "t" (by decide)⟩
